import Mathlib

/-!
Shallow embedding of `polaris_circle/client.py` (django-polaris-circle).

The module defines a single class `CircleClient` wrapping a `requests.Session`:
construction configures a retry policy, an `HTTPAdapter` connection pool and
fixed headers; the five operations (`get_transfers`, `get_transfer`,
`create_transfer`, `get_wallet`, `create_address`) build one HTTP request each.
Here every operation is embedded as a pure function from the client state and
the call arguments to the request it would issue (an `HttpRequest` record);
`get_transfers` returns `Except String HttpRequest` because it can raise a
`ValueError` before any request is built.  Python truthiness tests on optional
strings, ints and floats are modelled explicitly.
-/

namespace PolarisCircle

/-- Values that can appear in a query-parameter dict (`params=` in requests):
the client puts strings and one int (`pageSize`) there. -/
inductive QueryVal where
  | str (s : String)
  | int (n : Int)

/-- JSON values as built by the client for `json=` request bodies: only
strings and objects occur in `client.py`. -/
inductive Json where
  | str (s : String)
  | obj (fields : List (String × Json))

/-- Field lookup in a JSON object (`None` on a non-object). -/
def Json.lookup? (j : Json) (k : String) : Option Json :=
  match j with
  | .obj fs => fs.lookup k
  | _ => none

/-- The single HTTP request an operation hands to the session
(`self._session.get/post(url, params=..., json=..., timeout=...)`). -/
structure HttpRequest where
  method : String
  url : String
  params : List (String × QueryVal) := []
  body : Option Json := none
  timeout : Option ℚ := none

/-- Lookup of a top-level field of the JSON body. -/
def HttpRequest.bodyField (r : HttpRequest) (k : String) : Option Json :=
  match r.body with
  | some j => j.lookup? k
  | none => none

/-- Python truthiness of an `Optional[str]`: `None` and `""` are falsy. -/
def truthyStr : Option String → Bool
  | some s => s != ""
  | none => false

/-- Python truthiness of an `Optional[int]`: `None` and `0` are falsy. -/
def truthyInt : Option Int → Bool
  | some n => n != 0
  | none => false

/-- Python truthiness of an `Optional[float]` (used for `self.timeout`):
`None` and `0` are falsy.  Floats are modelled as rationals. -/
def truthyRat : Option ℚ → Bool
  | some q => q != 0
  | none => false

/-- Python `x or d` on an optional string: the default when `x` is falsy. -/
def pyOrStr (m : Option String) (dflt : String) : String :=
  match m with
  | some s => if s == "" then dflt else s
  | none => dflt

/-! ### datetime and strftime -/

/-- A Python `datetime.datetime`: stored wall-clock components plus an
optional fixed-offset `tzinfo` (minutes east of UTC).  The stored components
are never adjusted by the offset; `tzinfo` only matters to directives such as
`%z`, which the client never uses. -/
structure Datetime where
  year : Nat
  month : Nat
  day : Nat
  hour : Nat := 0
  minute : Nat := 0
  second : Nat := 0
  microsecond : Nat := 0
  tzoffsetMinutes : Option Int := none

/-- Range invariants enforced by the `datetime` constructor
(year 1..9999, month 1..12, day 1..31, hour 0..23, minute 0..59,
second 0..59, microsecond 0..999999). -/
def Datetime.valid (d : Datetime) : Bool :=
  1 ≤ d.year && d.year ≤ 9999 && 1 ≤ d.month && d.month ≤ 12 &&
  1 ≤ d.day && d.day ≤ 31 && d.hour ≤ 23 && d.minute ≤ 59 &&
  d.second ≤ 59 && d.microsecond ≤ 999999

/-- Zero left-padding to width `w`, as done by `%02d`-style strftime fields. -/
def zfill (w : Nat) (s : String) : String :=
  ⟨List.replicate (w - s.length) '0' ++ s.data⟩

/-- The module constant `CIRCLE_DATETIME_FORMAT`. -/
def CIRCLE_DATETIME_FORMAT : String := "%Y-%m-%dT%H:%M:%S.%fZ"

/-- Model of `datetime.strftime(d, CIRCLE_DATETIME_FORMAT)`: `%Y` is the
zero-padded 4-digit year, `%m`/`%d`/`%H`/`%M`/`%S` are zero-padded to 2
digits, `%f` is the microsecond zero-padded to 6 digits, and `Z` is a literal
character of the format string.  The format contains no `%z`/`%Z` directive,
so the `tzinfo` of the datetime is never consulted and no timezone
conversion happens: each directive reads the stored component as is. -/
def strftimeCircle (d : Datetime) : String :=
  zfill 4 (Nat.repr d.year) ++ "-" ++ zfill 2 (Nat.repr d.month) ++ "-" ++
  zfill 2 (Nat.repr d.day) ++ "T" ++ zfill 2 (Nat.repr d.hour) ++ ":" ++
  zfill 2 (Nat.repr d.minute) ++ ":" ++ zfill 2 (Nat.repr d.second) ++ "." ++
  zfill 6 (Nat.repr d.microsecond) ++ "Z"

/-! ### Python Decimal -/

/-- A Python `decimal.Decimal` finite value: sign, coefficient digits
(most significant first, no leading zero except for the single digit of
zero) and exponent — exactly the `(sign, int, exp)` triple of the decimal
arithmetic specification that `Decimal` implements.  No binary
floating-point is involved anywhere in this model. -/
structure PyDecimal where
  sign : Bool
  coeff : List Nat
  exp : Int

/-- Python `"%+d" % i`: an explicit sign followed by the decimal digits. -/
def signedIntStr (i : Int) : String :=
  (if i < 0 then "-" else "+") ++ Nat.repr i.natAbs

/-- Model of `Decimal.__str__` (the to-scientific-string conversion used by
`str(amount)` in `create_transfer`), following `_pydecimal.Decimal.__str__`
for finite values: choose the dot position from the exponent and adjusted
exponent, then emit integer part, fractional part and exponent part. -/
def PyDecimal.str (d : PyDecimal) : String :=
  let sign := if d.sign then "-" else ""
  let digits : List Char := d.coeff.map Nat.digitChar
  let leftdigits : Int := d.exp + d.coeff.length
  let dotplace : Int := if d.exp ≤ 0 && leftdigits > -6 then leftdigits else 1
  let intpart : String :=
    if dotplace ≤ 0 then "0"
    else if dotplace ≥ (digits.length : Int) then
      ⟨digits ++ List.replicate (dotplace.toNat - digits.length) '0'⟩
    else ⟨digits.take dotplace.toNat⟩
  let fracpart : String :=
    if dotplace ≤ 0 then "." ++ ⟨List.replicate (-dotplace).toNat '0' ++ digits⟩
    else if dotplace ≥ (digits.length : Int) then ""
    else "." ++ ⟨digits.drop dotplace.toNat⟩
  let exppart : String :=
    if leftdigits = dotplace then "" else "E" ++ signedIntStr (leftdigits - dotplace)
  sign ++ intpart ++ fracpart ++ exppart

/-- Numeric value of a digit character. -/
def charDigit (c : Char) : Nat := c.toNat - 48

/-- Digit characters read as a natural number (most significant first). -/
def digitsToNat (l : List Char) : Nat :=
  l.foldl (fun a c => a * 10 + charDigit c) 0

/-- An optionally signed run of digits read as an integer (the exponent part
of a numeric `Decimal` literal). -/
def parseSignedInt (l : List Char) : Option Int :=
  let p : Bool × List Char :=
    match l with
    | '-' :: t => (true, t)
    | '+' :: t => (false, t)
    | _ => (false, l)
  if p.2.isEmpty || !(p.2.all Char.isDigit) then none
  else some (if p.1 then -(digitsToNat p.2 : Int) else (digitsToNat p.2 : Int))

/-- Model of the `Decimal` constructor on finite numeric string literals
(`[sign] digits [. digits] [(e|E) [sign] digits]`): the coefficient is the
concatenated digits with leading zeros dropped (Python stores
`str(int(intpart + fracpart))`), and the exponent is the literal exponent
minus the number of fractional digits, so trailing zeros are kept —
`Decimal` with input `12.50` has coefficient digits 1,2,5,0 and
exponent -2. -/
def PyDecimal.ofString (s : String) : Option PyDecimal :=
  let l := s.data
  let p : Bool × List Char :=
    match l with
    | '-' :: t => (true, t)
    | '+' :: t => (false, t)
    | _ => (false, l)
  let ip := p.2.takeWhile Char.isDigit
  let rest := p.2.dropWhile Char.isDigit
  let fp : List Char :=
    match rest with
    | '.' :: t => t.takeWhile Char.isDigit
    | _ => []
  let rest2 : List Char :=
    match rest with
    | '.' :: t => t.dropWhile Char.isDigit
    | _ => rest
  if ip.isEmpty && fp.isEmpty then none
  else
    let expPart : Option Int :=
      match rest2 with
      | [] => some 0
      | 'e' :: t => parseSignedInt t
      | 'E' :: t => parseSignedInt t
      | _ => none
    match expPart with
    | none => none
    | some e =>
      let digs := (ip ++ fp).map charDigit
      let digs := digs.dropWhile (· == 0)
      let digs := if digs.isEmpty then [0] else digs
      some { sign := p.1, coeff := digs, exp := e - fp.length }

/-- The `Union[Decimal, str]` amount argument of `create_transfer`;
`str(amount)` is `Decimal.__str__` on a `Decimal` and the identity on a
`str`. -/
def pyStrAmount : PyDecimal ⊕ String → String
  | .inl d => d.str
  | .inr s => s

/-! ### Transport: urllib3 Retry, requests HTTPAdapter and Session -/

/-- The `urllib3.util.Retry` configuration built in `CircleClient.__init__`
(only the keyword arguments the client passes). -/
structure Retry where
  total : Nat
  backoff_factor : ℚ
  redirect : Nat
  allowed_methods : List String
  raise_on_status : Bool

/-- The `requests.adapters.HTTPAdapter` configuration (connection pool plus
retry policy); `closed` records whether its pool has been closed. -/
structure HTTPAdapter where
  pool_connections : Nat
  pool_maxsize : Nat
  max_retries : Retry
  closed : Bool := false

/-- The observable state of a `requests.Session` that `client.py` touches:
its header dict, its mounted adapters and whether it has been closed. -/
structure Session where
  headers : List (String × String) := []
  adapters : List (String × HTTPAdapter) := []
  closed : Bool := false

/-- Dict update (`d.update(other)`): existing keys are overwritten in place,
new keys are appended in iteration order. -/
def updateAssoc (base upd : List (String × String)) : List (String × String) :=
  upd.foldl
    (fun acc kv =>
      if acc.any (fun kv2 => kv2.1 == kv.1) then
        acc.map (fun kv2 => if kv2.1 == kv.1 then kv else kv2)
      else acc ++ [kv])
    base

/-- Session `headers.update(...)`. -/
def Session.headersUpdate (s : Session) (hs : List (String × String)) : Session :=
  { s with headers := updateAssoc s.headers hs }

/-- Session `mount(prefix, adapter)`: the adapter registered for the prefix
is replaced, a new prefix is appended. -/
def Session.mount (s : Session) (pfx : String) (adapter : HTTPAdapter) : Session :=
  { s with
    adapters :=
      if s.adapters.any (fun pa => pa.1 == pfx) then
        s.adapters.map (fun pa => if pa.1 == pfx then (pfx, adapter) else pa)
      else s.adapters ++ [(pfx, adapter)] }

/-- Session `close()`: closes the session and every mounted adapter with its
connection pool. -/
def Session.close (s : Session) : Session :=
  { s with
    closed := true
    adapters := s.adapters.map (fun pa => (pa.1, { pa.2 with closed := true })) }

/-! ### CircleClient -/

/-- Module constant `DEFAULT_NUM_RETRIES`. -/
def DEFAULT_NUM_RETRIES : Nat := 3

/-- Module constant `DEFAULT_BACKOFF_FACTOR` (0.5). -/
def DEFAULT_BACKOFF_FACTOR : ℚ := 1 / 2

/-- Module constant `DEFAULT_TIMEOUT`. -/
def DEFAULT_TIMEOUT : ℚ := 10

/-- `requests.adapters.DEFAULT_POOLSIZE`. -/
def DEFAULT_POOLSIZE : Nat := 10

/-- Module constant `IDENTIFICATION_HEADERS`. -/
def IDENTIFICATION_HEADERS : List (String × String) :=
  [("User-Agent", "django-polaris-circle/CircleClient"),
   ("X-Client-Name", "django-polaris-circle")]

/-- The state of a `CircleClient` instance after `__init__`: the stored
configuration attributes plus the session held in `self._session`. -/
structure CircleClient where
  api_key : String
  url : String
  wallet_id : String
  timeout : Option ℚ
  pool_size : Nat
  num_retries : Nat
  backoff_factor : ℚ
  session_ : Session

/-- Model of `CircleClient.__init__`: stores the configuration, builds the
`Retry`, the `HTTPAdapter` and the header dict, and — only when no session
is injected — creates a fresh `Session`, updates its headers and mounts the
adapter for both schemes.  When `session` is given it is stored untouched
and the retry/adapter/header setup is discarded. -/
def CircleClient.init (api_key api_url wallet_id : String)
    (timeout : Option ℚ := some DEFAULT_TIMEOUT)
    (pool_size : Nat := DEFAULT_POOLSIZE)
    (backoff_factor : ℚ := DEFAULT_BACKOFF_FACTOR)
    (num_retries : Nat := DEFAULT_NUM_RETRIES)
    (session : Option Session := none) : CircleClient :=
  let retry : Retry :=
    { total := num_retries
      backoff_factor := backoff_factor
      redirect := 0
      allowed_methods := ["GET", "POST"]
      raise_on_status := false }
  let adapter : HTTPAdapter :=
    { pool_connections := pool_size
      pool_maxsize := pool_size
      max_retries := retry }
  let headers : List (String × String) :=
    [("Authorization", "Bearer " ++ api_key),
     ("Accept", "application/json"),
     ("Content-Type", "application/json")] ++ IDENTIFICATION_HEADERS
  let sess : Session :=
    match session with
    | none => ((({} : Session).headersUpdate headers).mount "http://" adapter).mount
        "https://" adapter
    | some s => s
  { api_key := api_key
    url := api_url
    wallet_id := wallet_id
    timeout := timeout
    pool_size := pool_size
    num_retries := num_retries
    backoff_factor := backoff_factor
    session_ := sess }

/-- Model of `CircleClient.get_transfers`: builds the `request_args` dict in
source order (`from`, `to`, `walletId`, `destinationWalletId`,
`sourceWalletId`, `pageSize`), raising `ValueError` when a truthy
`wallet_id` is combined with a truthy destination or source filter — in
that case no request is built, so no network call is made and the client
state is untouched.  Each falsy argument is skipped.  The message matches
client.py with the quote characters around the parameter names omitted. -/
def CircleClient.get_transfers (c : CircleClient)
    (from_datetime to_datetime : Option Datetime := none)
    (page_size : Option Int := none)
    (wallet_id destination_wallet_id source_wallet_id : Option String := none) :
    Except String HttpRequest :=
  let base : List (String × QueryVal) :=
    (match from_datetime with
     | some d => [("from", .str (strftimeCircle d))]
     | none => []) ++
    (match to_datetime with
     | some d => [("to", .str (strftimeCircle d))]
     | none => [])
  if truthyStr wallet_id &&
      (truthyStr destination_wallet_id || truthyStr source_wallet_id) then
    .error
      "wallet_id cannot be specified with destination_wallet_id or source_wallet_id"
  else
    .ok
      { method := "GET"
        url := c.url ++ "/transfers"
        params := base ++
          (match wallet_id with
           | some w => if w != "" then [("walletId", .str w)] else []
           | none => []) ++
          (match destination_wallet_id with
           | some w => if w != "" then [("destinationWalletId", .str w)] else []
           | none => []) ++
          (match source_wallet_id with
           | some w => if w != "" then [("sourceWalletId", .str w)] else []
           | none => []) ++
          (match page_size with
           | some n => if n != 0 then [("pageSize", .int n)] else []
           | none => [])
        timeout := c.timeout }

/-- Model of `CircleClient.get_transfer`. -/
def CircleClient.get_transfer (c : CircleClient) (transfer_id : String) :
    HttpRequest :=
  { method := "GET"
    url := c.url ++ "/transfers/" ++ transfer_id
    timeout := c.timeout }

/-- Model of `CircleClient.create_transfer`: posts the JSON body with the
idempotency key, the wallet source, the fixed-chain blockchain destination
(`addressTag` is `memo or ""`) and the stringified amount. -/
def CircleClient.create_transfer (c : CircleClient)
    (idempotency_key account : String) (amount : PyDecimal ⊕ String)
    (memo : Option String := none) : HttpRequest :=
  { method := "POST"
    url := c.url ++ "/transfers"
    body := some (.obj
      [("idempotencyKey", .str idempotency_key),
       ("source", .obj [("type", .str "wallet"), ("id", .str c.wallet_id)]),
       ("destination", .obj
         [("type", .str "blockchain"),
          ("address", .str account),
          ("chain", .str "XLM"),
          ("addressTag", .str (pyOrStr memo ""))]),
       ("amount", .obj
         [("amount", .str (pyStrAmount amount)),
          ("currency", .str "USD")])])
    timeout := c.timeout }

/-- Model of `CircleClient.get_wallet`: the `optional_kwargs` dict computed
by the falsy check on `self.timeout` is dead code — it is never passed on;
the request carries `timeout=self.timeout` unconditionally. -/
def CircleClient.get_wallet (c : CircleClient) : HttpRequest :=
  let _optional_kwargs : List (String × ℚ) :=
    match c.timeout with
    | some t => if t != 0 then [("timeout", t)] else []
    | none => []
  { method := "GET"
    url := c.url ++ "/wallets/" ++ c.wallet_id
    timeout := c.timeout }

/-- Model of `CircleClient.create_address`: same dead `optional_kwargs`
computation as `get_wallet`; the body is the idempotency key with the fixed
currency and chain, posted to the configured wallet addresses path with
`timeout=self.timeout` unconditionally. -/
def CircleClient.create_address (c : CircleClient) (idempotency_key : String) :
    HttpRequest :=
  let _optional_kwargs : List (String × ℚ) :=
    match c.timeout with
    | some t => if t != 0 then [("timeout", t)] else []
    | none => []
  { method := "POST"
    url := c.url ++ "/wallets/" ++ c.wallet_id ++ "/addresses"
    body := some (.obj
      [("idempotencyKey", .str idempotency_key),
       ("currency", .str "USD"),
       ("chain", .str "XLM")])
    timeout := c.timeout }

/-- Model of `CircleClient.close`: closes the underlying session. -/
def CircleClient.close (c : CircleClient) : CircleClient :=
  { c with session_ := c.session_.close }

/-- Model of `CircleClient.__enter__`: returns `self`. -/
def CircleClient.enter (c : CircleClient) : CircleClient := c

/-- Model of `CircleClient.__exit__`: calls `self.close()` whatever the
exception arguments are. -/
def CircleClient.exit (c : CircleClient) : CircleClient := c.close

/-- Model of a Python `with CircleClient(...) as client:` block: the body
runs on the value returned by `__enter__` and produces either a result or
an exception (`Except`); `__exit__` runs on every exit path — the Python
with-statement guarantees this for normal and exceptional exit alike, and
since `__exit__` returns `None` an exception still propagates.  The pair is
the propagated outcome together with the client state after exit. -/
def withCircleClient {ε α : Type} (c : CircleClient)
    (body : CircleClient → Except ε α) : Except ε α × CircleClient :=
  (body (CircleClient.enter c), CircleClient.exit c)

/-! ### Sample values used by the witness theorems -/

/-- A concrete client built with an explicit configuration. -/
def sampleClient : CircleClient :=
  CircleClient.init "test-key" "https://api.circle.com/v1" "1000"

/-- A concrete naive datetime. -/
def sampleDT : Datetime :=
  { year := 2023, month := 1, day := 15, hour := 8, minute := 30 }

/-- A second concrete datetime, with microseconds. -/
def sampleDT2 : Datetime :=
  { year := 2024, month := 12, day := 3, hour := 23, minute := 59,
    second := 58, microsecond := 123456 }

/-- A concrete timezone-aware datetime (offset +05:30, not UTC). -/
def sampleAwareDT : Datetime :=
  { year := 2023, month := 6, day := 1, hour := 12,
    tzoffsetMinutes := some 330 }

/-- Every character of the string is an ASCII digit. -/
def allDigitChars (s : String) : Prop := ∀ c ∈ s.data, c.isDigit = true

/-- A string of the exact shape `YYYY-MM-DDTHH:MM:SS.ffffffZ`: a 4-digit
year, 2-digit month, day, hour, minute and second, six fractional-second
digits and a trailing `Z`, with the literal separators in place. -/
def circleShaped (s : String) : Prop :=
  ∃ y mo da hh mi ss us : String,
    s = y ++ "-" ++ mo ++ "-" ++ da ++ "T" ++ hh ++ ":" ++ mi ++ ":" ++ ss ++
        "." ++ us ++ "Z" ∧
    y.length = 4 ∧ mo.length = 2 ∧ da.length = 2 ∧ hh.length = 2 ∧
    mi.length = 2 ∧ ss.length = 2 ∧ us.length = 6 ∧
    allDigitChars y ∧ allDigitChars mo ∧ allDigitChars da ∧ allDigitChars hh ∧
    allDigitChars mi ∧ allDigitChars ss ∧ allDigitChars us

/-- The request `sampleClient.get_transfers` builds for the two sample
datetimes. -/
def sampleTransfersReq : HttpRequest :=
  { method := "GET"
    url := "https://api.circle.com/v1/transfers"
    params := [("from", .str "2023-01-15T08:30:00.000000Z"),
               ("to", .str "2024-12-03T23:59:58.123456Z")]
    timeout := some DEFAULT_TIMEOUT }

/-- The request `sampleClient.get_transfers` builds for the aware sample
datetime. -/
def sampleTzReq : HttpRequest :=
  { method := "GET"
    url := "https://api.circle.com/v1/transfers"
    params := [("from", .str "2023-06-01T12:00:00.000000Z")]
    timeout := some DEFAULT_TIMEOUT }

/-- The request `sampleClient.get_transfers` builds with no filters. -/
def sampleEmptyReq : HttpRequest :=
  { method := "GET"
    url := "https://api.circle.com/v1/transfers"
    params := []
    timeout := some DEFAULT_TIMEOUT }

/-! ### Helper lemmas: decimal digit strings and zero padding -/

theorem digitChar_isDigit {n : Nat} (h : n < 10) :
    (Nat.digitChar n).isDigit = true := by
  interval_cases n <;> decide

theorem toDigitsCore_all_digits :
    ∀ (f n : Nat) (acc : List Char), (∀ c ∈ acc, c.isDigit = true) →
      ∀ c ∈ Nat.toDigitsCore 10 f n acc, c.isDigit = true := by
  intro f
  induction f with
  | zero =>
    intro n acc hacc c hc
    simpa [Nat.toDigitsCore] using hacc c hc
  | succ f ih =>
    intro n acc hacc c hc
    simp only [Nat.toDigitsCore] at hc
    by_cases h10 : n / 10 = 0
    · simp only [h10, if_pos] at hc
      rcases List.mem_cons.mp hc with rfl | hmem
      · exact digitChar_isDigit (Nat.mod_lt _ (by norm_num))
      · exact hacc c hmem
    · simp only [h10, if_neg, if_false] at hc
      refine ih (n / 10) (Nat.digitChar (n % 10) :: acc) ?_ c hc
      intro c2 hc2
      rcases List.mem_cons.mp hc2 with rfl | hmem
      · exact digitChar_isDigit (Nat.mod_lt _ (by norm_num))
      · exact hacc c2 hmem

theorem repr_all_digits (n : Nat) : ∀ c ∈ (Nat.repr n).data, c.isDigit = true := by
  intro c hc
  exact toDigitsCore_all_digits (n + 1) n [] (by simp) c hc

theorem zfill_length {w : Nat} {s : String} (h : s.length ≤ w) :
    (zfill w s).length = w := by
  have : (zfill w s).length =
      (List.replicate (w - s.length) '0' ++ s.data).length := rfl
  rw [this, List.length_append, List.length_replicate]
  have hs : s.length = s.data.length := rfl
  omega

theorem zfill_all_digits {w : Nat} {s : String}
    (hs : ∀ c ∈ s.data, c.isDigit = true) :
    allDigitChars (zfill w s) := by
  intro c hc
  have hc2 : c ∈ List.replicate (w - s.length) '0' ++ s.data := hc
  rcases List.mem_append.mp hc2 with hl | hr
  · rw [List.eq_of_mem_replicate hl]; rfl
  · exact hs c hr

theorem zfill_repr_length {w n : Nat} (hw : 0 < w) (h : n < 10 ^ w) :
    (zfill w (Nat.repr n)).length = w :=
  zfill_length (Nat.repr_length n w hw h)

theorem strftimeCircle_shaped {d : Datetime} (hd : d.valid = true) :
    circleShaped (strftimeCircle d) := by
  simp only [Datetime.valid, Bool.and_eq_true, decide_eq_true_eq] at hd
  refine ⟨zfill 4 (Nat.repr d.year), zfill 2 (Nat.repr d.month),
    zfill 2 (Nat.repr d.day), zfill 2 (Nat.repr d.hour),
    zfill 2 (Nat.repr d.minute), zfill 2 (Nat.repr d.second),
    zfill 6 (Nat.repr d.microsecond), rfl, ?_, ?_, ?_, ?_, ?_, ?_, ?_,
    zfill_all_digits (repr_all_digits _), zfill_all_digits (repr_all_digits _),
    zfill_all_digits (repr_all_digits _), zfill_all_digits (repr_all_digits _),
    zfill_all_digits (repr_all_digits _), zfill_all_digits (repr_all_digits _),
    zfill_all_digits (repr_all_digits _)⟩
  · exact zfill_repr_length (by norm_num) (by norm_num; omega)
  · exact zfill_repr_length (by norm_num) (by norm_num; omega)
  · exact zfill_repr_length (by norm_num) (by norm_num; omega)
  · exact zfill_repr_length (by norm_num) (by norm_num; omega)
  · exact zfill_repr_length (by norm_num) (by norm_num; omega)
  · exact zfill_repr_length (by norm_num) (by norm_num; omega)
  · exact zfill_repr_length (by norm_num) (by norm_num; omega)

/-! ### Claim theorems -/

/-- C1: whenever `get_transfers` is called with a wallet filter (a truthy
`wallet_id`) together with a truthy source or destination wallet filter, the
call raises the parameter-conflict `ValueError`; the `Except.error` result
means no `HttpRequest` is built, hence no network call is performed, and the
operation is a pure function of the client, so all client state is
unchanged. -/
theorem get_transfers_wallet_conflict (c : CircleClient)
    (f t : Option Datetime) (ps : Option Int) (w dw sw : Option String)
    (hw : truthyStr w = true) (hc : truthyStr dw = true ∨ truthyStr sw = true) :
    c.get_transfers f t ps w dw sw =
      .error
        "wallet_id cannot be specified with destination_wallet_id or source_wallet_id" := by
  have hcond : (truthyStr w && (truthyStr dw || truthyStr sw)) = true := by
    rcases hc with h | h <;> simp [hw, h]
  simp [CircleClient.get_transfers, hcond]

/-- Witness for C1 at a concrete conflicting call. -/
theorem get_transfers_wallet_conflict_witness :
    truthyStr (some "1001") = true ∧
    (truthyStr (some "1002") = true ∨ truthyStr (some "1003") = true) ∧
    sampleClient.get_transfers none none none (some "1001") (some "1002") none =
      .error
        "wallet_id cannot be specified with destination_wallet_id or source_wallet_id" :=
  ⟨rfl, Or.inl rfl,
    get_transfers_wallet_conflict sampleClient none none none
      (some "1001") (some "1002") none rfl (Or.inl rfl)⟩

/-- C9: `get_transfers` treats every falsy argument as absent — a call with
an empty-string `wallet_id`, `destination_wallet_id` or `source_wallet_id`,
or with `page_size = 0`, builds the same result as the call with that
argument omitted; with every falsy filter the parameter dict is empty; and
an empty-string `wallet_id` never triggers the conflict error, whatever the
source and destination filters are. -/
theorem get_transfers_falsy_absent (c : CircleClient)
    (f t : Option Datetime) (ps : Option Int) (w dw sw : Option String) :
    c.get_transfers f t ps (some "") dw sw = c.get_transfers f t ps none dw sw ∧
    c.get_transfers f t (some 0) w dw sw = c.get_transfers f t none w dw sw ∧
    c.get_transfers f t ps w (some "") sw = c.get_transfers f t ps w none sw ∧
    c.get_transfers f t ps w dw (some "") = c.get_transfers f t ps w dw none ∧
    c.get_transfers none none (some 0) (some "") (some "") (some "") =
      .ok { method := "GET", url := c.url ++ "/transfers", params := [],
            body := none, timeout := c.timeout } ∧
    ∃ req, c.get_transfers f t ps (some "") dw sw = .ok req := by
  refine ⟨?_, ?_, ?_, ?_, rfl, ?_⟩
  · simp [CircleClient.get_transfers, truthyStr]
  · simp [CircleClient.get_transfers, truthyStr]
  · simp [CircleClient.get_transfers, truthyStr]
  · simp [CircleClient.get_transfers, truthyStr]
  · have h1 : (truthyStr (some "") &&
        (truthyStr dw || truthyStr sw)) = false := by
      simp [truthyStr]
    rw [CircleClient.get_transfers.eq_def, h1]
    simp only [Bool.false_eq_true, if_false]
    exact ⟨_, rfl⟩


/-- C5: for every valid datetime supplied as `from_datetime` or
`to_datetime`, whenever the call issues a request its `from`/`to` query
parameters carry `strftime` of that datetime with `CIRCLE_DATETIME_FORMAT`,
and that string has exactly the shape `YYYY-MM-DDTHH:MM:SS.ffffffZ`: six
fractional-second digits and a trailing `Z`. -/
theorem get_transfers_datetime_format (c : CircleClient) (d e : Datetime)
    (ps : Option Int) (w dw sw : Option String) (req : HttpRequest)
    (hd : d.valid = true) (he : e.valid = true)
    (h : c.get_transfers (some d) (some e) ps w dw sw = .ok req) :
    req.params.lookup "from" = some (.str (strftimeCircle d)) ∧
    req.params.lookup "to" = some (.str (strftimeCircle e)) ∧
    circleShaped (strftimeCircle d) ∧ circleShaped (strftimeCircle e) := by
  by_cases hcond :
      (truthyStr w && (truthyStr dw || truthyStr sw)) = true
  · simp [CircleClient.get_transfers, hcond] at h
  · rw [CircleClient.get_transfers.eq_def] at h
    rw [if_neg hcond] at h
    have hr := Except.ok.inj h
    subst hr
    refine ⟨?_, ?_, strftimeCircle_shaped hd, strftimeCircle_shaped he⟩
    · simp [List.lookup]
    · simp [List.lookup]

/-- Witness for C5 at two concrete valid datetimes. -/
theorem get_transfers_datetime_format_witness :
    sampleDT.valid = true ∧ sampleDT2.valid = true ∧
    sampleClient.get_transfers (some sampleDT) (some sampleDT2)
        none none none none = .ok sampleTransfersReq ∧
    (sampleTransfersReq.params.lookup "from" =
        some (.str (strftimeCircle sampleDT)) ∧
      sampleTransfersReq.params.lookup "to" =
        some (.str (strftimeCircle sampleDT2)) ∧
      circleShaped (strftimeCircle sampleDT) ∧
      circleShaped (strftimeCircle sampleDT2)) :=
  ⟨rfl, rfl, rfl,
    get_transfers_datetime_format sampleClient sampleDT sampleDT2
      none none none none sampleTransfersReq rfl rfl rfl⟩

/-- C10: serialization of a datetime filter performs no timezone
conversion: the serialized `from` value equals the formatting of the stored
wall-clock components with the tzinfo erased — whatever offset the datetime
carries — and the literal `Z` is the last character regardless, so a
non-UTC datetime is labeled UTC without being converted. -/
theorem get_transfers_no_tz_conversion (c : CircleClient) (d : Datetime)
    (ps : Option Int) (w dw sw : Option String) (req : HttpRequest)
    (h : c.get_transfers (some d) none ps w dw sw = .ok req) :
    req.params.lookup "from" =
      some (.str (strftimeCircle { d with tzoffsetMinutes := none })) ∧
    (strftimeCircle d).data.getLast? = some 'Z' := by
  have hsame : strftimeCircle { d with tzoffsetMinutes := none } =
      strftimeCircle d := by
    cases d; rfl
  constructor
  · rw [hsame]
    by_cases hcond :
        (truthyStr w && (truthyStr dw || truthyStr sw)) = true
    · simp [CircleClient.get_transfers, hcond] at h
    · rw [CircleClient.get_transfers.eq_def] at h
      rw [if_neg hcond] at h
      have hr := Except.ok.inj h
      subst hr
      simp [List.lookup]
  · show ((strftimeCircle d).data).getLast? = some 'Z'
    have hdata : (strftimeCircle d).data =
        (zfill 4 (Nat.repr d.year) ++ "-" ++ zfill 2 (Nat.repr d.month) ++
          "-" ++ zfill 2 (Nat.repr d.day) ++ "T" ++ zfill 2 (Nat.repr d.hour) ++
          ":" ++ zfill 2 (Nat.repr d.minute) ++ ":" ++
          zfill 2 (Nat.repr d.second) ++ "." ++
          zfill 6 (Nat.repr d.microsecond)).data ++ ['Z'] := rfl
    rw [hdata, List.getLast?_concat]

/-- Witness for C10 at a concrete timezone-aware (+05:30) datetime. -/
theorem get_transfers_no_tz_conversion_witness :
    sampleClient.get_transfers (some sampleAwareDT) none none none none none =
      .ok sampleTzReq ∧
    (sampleTzReq.params.lookup "from" =
        some (.str (strftimeCircle { sampleAwareDT with tzoffsetMinutes := none })) ∧
      (strftimeCircle sampleAwareDT).data.getLast? = some 'Z') :=
  ⟨rfl,
    get_transfers_no_tz_conversion sampleClient sampleAwareDT
      none none none none sampleTzReq rfl⟩

/-- C2: the amount string in the `create_transfer` body is exactly
`str(amount)` — the scientific-string conversion of the `Decimal` (or the
string itself), a path with no binary floating-point anywhere in it — and
in particular `Decimal` of the literal `12.50` has coefficient digits
1,2,5,0 with exponent -2 and serializes as the literal string `12.50`. -/
theorem create_transfer_amount_exact (c : CircleClient)
    (idempotency_key account : String) (amount : PyDecimal ⊕ String)
    (memo : Option String) :
    ((c.create_transfer idempotency_key account amount memo).bodyField
        "amount").bind (fun j => j.lookup? "amount") =
      some (.str (pyStrAmount amount)) ∧
    PyDecimal.ofString "12.50" =
      some { sign := false, coeff := [1, 2, 5, 0], exp := -2 } ∧
    pyStrAmount (.inl { sign := false, coeff := [1, 2, 5, 0], exp := -2 }) =
      "12.50" :=
  ⟨rfl, rfl, rfl⟩

/-- C3: the `create_transfer` JSON body is exactly the caller's idempotency
key, the wallet source with the configured wallet id, the blockchain
destination on chain XLM with the given account and `addressTag` the memo
(empty string when absent), and the USD amount object. -/
theorem create_transfer_body_exact (c : CircleClient)
    (idempotency_key account : String) (amount : PyDecimal ⊕ String)
    (memo : Option String) :
    (c.create_transfer idempotency_key account amount memo).body =
      some (.obj
        [("idempotencyKey", .str idempotency_key),
         ("source", .obj [("type", .str "wallet"), ("id", .str c.wallet_id)]),
         ("destination", .obj
           [("type", .str "blockchain"),
            ("address", .str account),
            ("chain", .str "XLM"),
            ("addressTag", .str (memo.getD ""))]),
         ("amount", .obj
           [("amount", .str (pyStrAmount amount)),
            ("currency", .str "USD")])]) := by
  cases memo with
  | none => rfl
  | some s =>
    rcases eq_or_ne s "" with rfl | hs
    · rfl
    · simp [CircleClient.create_transfer, pyOrStr, hs]

/-- C4: the `create_address` request is exactly a POST of
`{idempotencyKey, currency = USD, chain = XLM}` — the currency and chain
literals are independent of every caller input — to the configured wallet
addresses path. -/
theorem create_address_request_exact (c : CircleClient)
    (idempotency_key : String) :
    c.create_address idempotency_key =
      { method := "POST"
        url := c.url ++ "/wallets/" ++ c.wallet_id ++ "/addresses"
        params := []
        body := some (.obj
          [("idempotencyKey", .str idempotency_key),
           ("currency", .str "USD"),
           ("chain", .str "XLM")])
        timeout := c.timeout } := rfl

/-- C6: construction without an injected session configures the transport
exactly as `__init__` does — a retry policy with `total = num_retries`,
the given backoff factor, zero redirects, retries allowed only for GET and
POST and no raising on status, inside an adapter whose pool connections and
maximum size are `pool_size`, mounted for both schemes; and session headers
of exactly the bearer authorization, the JSON accept/content-type and the
static identification headers.  With an injected session none of this setup
is applied: the session is stored untouched. -/
theorem init_transport_config (api_key api_url wallet_id : String)
    (timeout : Option ℚ) (pool_size : Nat) (backoff_factor : ℚ)
    (num_retries : Nat) :
    (CircleClient.init api_key api_url wallet_id timeout pool_size
        backoff_factor num_retries none).session_ =
      { headers :=
          [("Authorization", "Bearer " ++ api_key),
           ("Accept", "application/json"),
           ("Content-Type", "application/json"),
           ("User-Agent", "django-polaris-circle/CircleClient"),
           ("X-Client-Name", "django-polaris-circle")]
        adapters :=
          [("http://",
            { pool_connections := pool_size
              pool_maxsize := pool_size
              max_retries :=
                { total := num_retries
                  backoff_factor := backoff_factor
                  redirect := 0
                  allowed_methods := ["GET", "POST"]
                  raise_on_status := false }
              closed := false }),
           ("https://",
            { pool_connections := pool_size
              pool_maxsize := pool_size
              max_retries :=
                { total := num_retries
                  backoff_factor := backoff_factor
                  redirect := 0
                  allowed_methods := ["GET", "POST"]
                  raise_on_status := false }
              closed := false })]
        closed := false } ∧
    ∀ s : Session,
      (CircleClient.init api_key api_url wallet_id timeout pool_size
          backoff_factor num_retries (some s)).session_ = s :=
  ⟨rfl, fun _ => rfl⟩

/-- Witness for C6 at a concrete configuration and a concrete injected
session. -/
theorem init_transport_config_witness :
    (CircleClient.init "test-key" "https://api.circle.com/v1" "1000"
        (some DEFAULT_TIMEOUT) DEFAULT_POOLSIZE DEFAULT_BACKOFF_FACTOR
        DEFAULT_NUM_RETRIES none).session_ =
      { headers :=
          [("Authorization", "Bearer " ++ "test-key"),
           ("Accept", "application/json"),
           ("Content-Type", "application/json"),
           ("User-Agent", "django-polaris-circle/CircleClient"),
           ("X-Client-Name", "django-polaris-circle")]
        adapters :=
          [("http://",
            { pool_connections := DEFAULT_POOLSIZE
              pool_maxsize := DEFAULT_POOLSIZE
              max_retries :=
                { total := DEFAULT_NUM_RETRIES
                  backoff_factor := DEFAULT_BACKOFF_FACTOR
                  redirect := 0
                  allowed_methods := ["GET", "POST"]
                  raise_on_status := false }
              closed := false }),
           ("https://",
            { pool_connections := DEFAULT_POOLSIZE
              pool_maxsize := DEFAULT_POOLSIZE
              max_retries :=
                { total := DEFAULT_NUM_RETRIES
                  backoff_factor := DEFAULT_BACKOFF_FACTOR
                  redirect := 0
                  allowed_methods := ["GET", "POST"]
                  raise_on_status := false }
              closed := false })]
        closed := false } ∧
    (CircleClient.init "test-key" "https://api.circle.com/v1" "1000"
        (some DEFAULT_TIMEOUT) DEFAULT_POOLSIZE DEFAULT_BACKOFF_FACTOR
        DEFAULT_NUM_RETRIES (some {})).session_ = ({} : Session) :=
  ⟨(init_transport_config "test-key" "https://api.circle.com/v1" "1000"
      (some DEFAULT_TIMEOUT) DEFAULT_POOLSIZE DEFAULT_BACKOFF_FACTOR
      DEFAULT_NUM_RETRIES).1,
   (init_transport_config "test-key" "https://api.circle.com/v1" "1000"
      (some DEFAULT_TIMEOUT) DEFAULT_POOLSIZE DEFAULT_BACKOFF_FACTOR
      DEFAULT_NUM_RETRIES).2 {}⟩

/-- C7: every operation hands `timeout=self.timeout` to its request
unconditionally — `get_wallet` and `create_address` included, whose
`optional_kwargs` falsy-check dict is dead code that never reaches the
request — so the per-request timeout ceiling is identical across the five
operations. -/
theorem operations_timeout_unconditional (c : CircleClient)
    (transfer_id idempotency_key account : String)
    (amount : PyDecimal ⊕ String) (memo : Option String)
    (f t : Option Datetime) (ps : Option Int) (w dw sw : Option String) :
    (c.get_transfer transfer_id).timeout = c.timeout ∧
    (c.create_transfer idempotency_key account amount memo).timeout =
      c.timeout ∧
    c.get_wallet.timeout = c.timeout ∧
    (c.create_address idempotency_key).timeout = c.timeout ∧
    ∀ req : HttpRequest,
      c.get_transfers f t ps w dw sw = .ok req → req.timeout = c.timeout := by
  refine ⟨rfl, rfl, rfl, rfl, ?_⟩
  intro req h
  by_cases hcond :
      (truthyStr w && (truthyStr dw || truthyStr sw)) = true
  · simp [CircleClient.get_transfers, hcond] at h
  · rw [CircleClient.get_transfers.eq_def] at h
    rw [if_neg hcond] at h
    have hr := Except.ok.inj h
    subst hr
    rfl

/-- Witness for C7 at a concrete client and call, including the
`get_transfers` request. -/
theorem operations_timeout_unconditional_witness :
    (sampleClient.get_transfer "tid-1").timeout = sampleClient.timeout ∧
    sampleClient.get_wallet.timeout = sampleClient.timeout ∧
    (sampleClient.create_address "ik-1").timeout = sampleClient.timeout ∧
    sampleEmptyReq.timeout = sampleClient.timeout :=
  ⟨(operations_timeout_unconditional sampleClient "tid-1" "ik-1" "GACCT"
      (.inr "1.0") none none none none none none none).1,
   (operations_timeout_unconditional sampleClient "tid-1" "ik-1" "GACCT"
      (.inr "1.0") none none none none none none none).2.2.1,
   (operations_timeout_unconditional sampleClient "tid-1" "ik-1" "GACCT"
      (.inr "1.0") none none none none none none none).2.2.2.1,
   (operations_timeout_unconditional sampleClient "tid-1" "ik-1" "GACCT"
      (.inr "1.0") none none none none none none none).2.2.2.2
     sampleEmptyReq rfl⟩

/-- C8: a scoped use of the client runs `__exit__` on every exit path —
the outcome of the body, normal or exceptional, is propagated unchanged
while the state after the scope always has the session closed and every
mounted adapter pool closed; `__exit__` is exactly `close`, which closes
the underlying session. -/
theorem scoped_exit_closes (c : CircleClient) (ε α : Type)
    (body : CircleClient → Except ε α) :
    (withCircleClient c body).2.session_.closed = true ∧
    (withCircleClient c body).2.session_.adapters.all
        (fun pa => pa.2.closed) = true ∧
    (withCircleClient c body).1 = body c ∧
    CircleClient.exit c = c.close ∧
    c.close.session_ = c.session_.close := by
  refine ⟨rfl, ?_, rfl, rfl, rfl⟩
  simp [withCircleClient, CircleClient.exit, CircleClient.close, Session.close,
    List.all_eq_true]

/-- Witness for C8: a concrete scope whose body raises; the exception is
propagated and the session and its adapter pools end up closed. -/
theorem scoped_exit_closes_witness :
    (withCircleClient sampleClient
        (fun _ => (.error "boom" : Except String Unit))).2.session_.closed =
      true ∧
    (withCircleClient sampleClient
        (fun _ => (.error "boom" : Except String Unit))).2.session_.adapters.all
        (fun pa => pa.2.closed) = true ∧
    (withCircleClient sampleClient
        (fun _ => (.error "boom" : Except String Unit))).1 =
      .error "boom" :=
  ⟨(scoped_exit_closes sampleClient String Unit
      (fun _ => .error "boom")).1,
   (scoped_exit_closes sampleClient String Unit
      (fun _ => .error "boom")).2.1,
   (scoped_exit_closes sampleClient String Unit
      (fun _ => .error "boom")).2.2.1⟩

end PolarisCircle
